import Mathlib

/-!
Shallow embedding of the libstns-go client core (src/example.go, package
libstns): the Options/TLS data model, the TLS trust resolver `tlsConfig`,
the client constructor `newClient`, and the response handling of `Request`.

External library calls (filesystem reads, PEM parsing, X509 key-pair
loading, URL parsing, environment parsing, the HTTP transport) are passed
in as explicit oracle parameters; the embedding itself mirrors the Go
control flow statement by statement.

Certificates are opaque blobs to this code; they are modelled by `Nat`.
-/

abbrev Cert := Nat

/-- Go struct `TLS` (fields CA, Cert, Key: file paths). -/
structure TLS where
  CA : String
  Cert : String
  Key : String
  deriving DecidableEq, Repr

/-- Go struct `Options` (fields used by the client core). `env.Parse`
populates it from environment variables before defaults are applied;
that step is an oracle parameter of `newClient`. -/
structure Options where
  UserAgent : String
  RequestTimeout : Int
  RequestRetry : Int
  HttpKeepalive : Bool
  HttpProxy : String
  HttpHeaders : List (String × String)
  AuthToken : String
  User : String
  Password : String
  SkipSSLVerify : Bool
  TLS : TLS
  deriving DecidableEq, Repr

def version : String := "0.0.1"

def DefaultTimeout : Int := 15

def DefaultRetry : Int := 3

/-- Model of Go `tls.Config` restricted to the fields the code touches.
`RootCAs = none` models a nil pool; `some pool` a dedicated `x509.CertPool`
holding exactly the listed certificates. -/
structure TLSConfig where
  InsecureSkipVerify : Bool
  RootCAs : Option (List Cert)
  Certificates : List Cert
  deriving DecidableEq, Repr

/-- Embedding of `tlsConfig(opt *Options) (*tls.Config, error)` from src/example.go
lines 239-267. Oracles: `fs` models `ioutil.ReadFile`, `pem` models which
certificates `x509.CertPool.AppendCertsFromPEM` extracts from a blob
(the Go code ignores its boolean result), `loadKeyPair` models
`tls.LoadX509KeyPair`. The result `Except.ok none` is the nil sentinel
"no custom TLS configuration". -/
def tlsConfig (fs : String → Except String String) (pem : String → List Cert)
    (loadKeyPair : String → String → Except String Cert) (opt : Options) :
    Except String (Option TLSConfig) :=
  let c0 : TLSConfig :=
    { InsecureSkipVerify := opt.SkipSSLVerify, RootCAs := none, Certificates := [] }
  match (if opt.TLS.CA ≠ "" then
           match fs opt.TLS.CA with
           | .error e => Except.error e
           | .ok severCert => Except.ok { c0 with RootCAs := some (pem severCert) }
         else Except.ok c0) with
  | .error e => .error e
  | .ok c1 =>
    match (if opt.TLS.Cert ≠ "" ∧ opt.TLS.Key ≠ "" then
             match loadKeyPair opt.TLS.Cert opt.TLS.Key with
             | .error e => Except.error e
             | .ok x509Cert => Except.ok { c1 with Certificates := [x509Cert] }
           else Except.ok c1) with
    | .error e => .error e
    | .ok c2 =>
      if c2.Certificates = [] ∧ c2.RootCAs = none then .ok none else .ok (some c2)

/-- Parsed URL, as far as the client code inspects it
(`net/url.URL`: scheme, host, path). -/
structure URLParts where
  scheme : String
  host : String
  path : String
  deriving DecidableEq, Repr

/-- Connection-establishment strategy of the built `http.Transport`:
either the default TCP dialer with the configured timeout, or the
unix-socket `DialContext` closure that dials a fixed socket path. -/
inductive DialStrategy where
  | tcp (timeoutSeconds : Int)
  | unixSocket (socketPath : String)
  deriving DecidableEq, Repr

/-- Where a dial attempt actually connects. -/
inductive DialTarget where
  | tcp (network addr : String)
  | unix (socketPath : String)
  deriving DecidableEq, Repr

/-- Proxy selection of the transport: `http.ProxyFromEnvironment` or a
fixed proxy URL. -/
inductive ProxyMode where
  | fromEnvironment
  | url (u : URLParts)
  deriving DecidableEq, Repr

/-- The `http.Transport` fields the code sets. -/
structure Transport where
  dial : DialStrategy
  disableKeepAlives : Bool
  tlsClientConfig : Option TLSConfig
  proxy : ProxyMode
  deriving DecidableEq, Repr

/-- The dial target of one outbound connection attempt: the Go
unix-socket `DialContext` closure ignores both of its network/addr
arguments and dials the captured socket path. -/
def Transport.dialFor (tr : Transport) (network addr : String) : DialTarget :=
  match tr.dial with
  | .tcp _ => .tcp network addr
  | .unixSocket p => .unix p

/-- Go `strings.Index(s, pre) == 0`, i.e. `strings.HasPrefix`:
the first `len pre` characters of `s` are exactly `pre`. -/
def hasPre (s pre : String) : Bool :=
  decide (s.data.take pre.data.length = pre.data)

/-- Go struct `client`. `retryMax` records `retryclient.RetryMax`. -/
structure client where
  ApiEndpoint : String
  opt : Options
  retryMax : Int
  transport : Transport
  deriving DecidableEq, Repr

/-- The zero-value default blocks of `newClient` (src/example.go lines
82-92): empty user agent becomes "libstns-go/<version>", zero timeout
becomes `DefaultTimeout`, zero retry count becomes `DefaultRetry`. -/
def applyDefaultOptions (optA : Options) : Options :=
  let optB := if optA.UserAgent = "" then
      { optA with UserAgent := "libstns-go" ++ "/" ++ version } else optA
  let optC := if optB.RequestTimeout = 0 then
      { optB with RequestTimeout := DefaultTimeout } else optB
  if optC.RequestRetry = 0 then
    { optC with RequestRetry := DefaultRetry } else optC

/-- Embedding of `newClient(endpoint string, opt *Options) (*client, error)` from
src/example.go lines 77-141. Oracles: `envParse` models `env.Parse`
(which may overwrite fields of the caller's Options from environment
variables), `fs`/`pem`/`loadKeyPair` feed `tlsConfig`, `parseURL` models
`url.Parse`. Since the Go function mutates the caller's `*Options` in
place, the model returns the final state of that struct alongside the
client. -/
def newClient (envParse : Options → Except String Options)
    (fs : String → Except String String) (pem : String → List Cert)
    (loadKeyPair : String → String → Except String Cert)
    (parseURL : String → Except String URLParts)
    (endpoint : String) (opt0 : Options) : Except String (client × Options) :=
  match envParse opt0 with
  | .error e => .error e
  | .ok optA =>
    let opt := applyDefaultOptions optA
    let retryMax := opt.RequestRetry
    let tr : Transport :=
      { dial := .tcp opt.RequestTimeout, disableKeepAlives := !opt.HttpKeepalive,
        tlsClientConfig := none, proxy := .fromEnvironment }
    match (if hasPre endpoint "https" then
             match tlsConfig fs pem loadKeyPair opt with
             | .error e => Except.error e
             | .ok tc => Except.ok { tr with tlsClientConfig := tc }
           else Except.ok tr) with
    | .error e => .error e
    | .ok tr1 =>
      match (if hasPre endpoint "unix" then
               match parseURL endpoint with
               | .error e => Except.error e
               | .ok u => Except.ok ({ tr1 with dial := .unixSocket u.path }, "http://unix")
             else Except.ok (tr1, endpoint)) with
      | .error e => .error e
      | .ok (tr2, endpoint2) =>
        let tr3 := if opt.HttpProxy ≠ "" then
            match parseURL opt.HttpProxy with
            | .ok proxyUrl => { tr2 with proxy := .url proxyUrl }
            | .error _ => tr2
          else tr2
        .ok ({ ApiEndpoint := endpoint2, opt := opt, retryMax := retryMax,
               transport := tr3 }, opt)

/-- Go struct `Response` (status code, allow-list-filtered headers, raw
body). Headers are an association list standing in for the Go map;
`http.Header` keys are unique, so so are the keys here. -/
structure Response where
  StatusCode : Int
  Headers : List (String × String)
  Body : String
  deriving DecidableEq, Repr

/-- What `resp.Header` delivers: names mapped to their value lists
(Go `http.Header`; value lists of received headers are non-empty). -/
structure RawResponse where
  StatusCode : Int
  Header : List (String × List String)
  Body : String
  deriving DecidableEq, Repr

/-- The `supportHeaders` allow-list from `Request` (lines 155-160). -/
def supportHeaders : List String :=
  ["user-highest-id", "user-lowest-id", "group-highest-id", "group-lowest-id"]

/-- Go `strings.ToLower` restricted to the ASCII header names it is
applied to, as a character-wise map. -/
def toLowerStr (s : String) : String := ⟨s.data.map Char.toLower⟩

/-- The header-filter loop of `Request` (lines 183-188): keep an entry
iff its lower-cased name is in `supportHeaders`, mapping the name to the
first element of its value slice (`v[0]`; an entry with an empty value
slice, impossible for received headers, is dropped rather than panicking). -/
def filterHeaders (hdr : List (String × List String)) : List (String × String) :=
  hdr.filterMap (fun kv =>
    if toLowerStr kv.1 ∈ supportHeaders then
      match kv.2 with
      | [] => none
      | v :: _ => some (kv.1, v)
    else none)

/-- Embedding of `RequestURL(requestPath, query string)` (lines 142-152). Oracles:
`parseURL` models `url.Parse`, `pathJoin` models Go `path.Join`. -/
def RequestURL (parseURL : String → Except String URLParts)
    (pathJoin : String → String → String)
    (h : client) (requestPath query : String) : Except String (URLParts × String) :=
  match parseURL h.ApiEndpoint with
  | .error e => .error e
  | .ok u => .ok ({ u with path := pathJoin u.path requestPath }, query)

/-- An outgoing request as handed to the transport: decorated headers,
optional basic-auth pair, target URL and query. -/
structure OutRequest where
  url : URLParts
  query : String
  headers : List (String × String)
  basicAuth : Option (String × String)
  deriving DecidableEq, Repr

/-- Models `req.Header.Add`: additive, keeps already-present same-named entries. -/
def headerAdd (hs : List (String × String)) (k v : String) : List (String × String) :=
  hs ++ [(k, v)]

/-- Models `req.Header.Set`: replaces every prior entry of that name. -/
def headerSet (hs : List (String × String)) (k v : String) : List (String × String) :=
  hs.filter (fun kv => kv.1 ≠ k) ++ [(k, v)]

/-- Embedding of `(h *client) setHeaders(req)` (lines 219-231). -/
def setHeaders (opt : Options) (hs : List (String × String)) : List (String × String) :=
  let hs := opt.HttpHeaders.foldl (fun a kv => headerAdd a kv.1 kv.2) hs
  let hs := headerSet hs "User-Agent" opt.UserAgent
  if opt.AuthToken ≠ "" then
    headerSet hs "Authorization" ("token " ++ opt.AuthToken)
  else hs

/-- Embedding of `(h *client) setBasicAuth(req)` (lines 233-237). -/
def setBasicAuth (opt : Options) (req : OutRequest) : OutRequest :=
  if opt.User ≠ "" ∧ opt.Password ≠ "" then
    { req with basicAuth := some (opt.User, opt.Password) }
  else req

/-- Embedding of `(h *client) Request(path, query string) (*Response, error)`
(lines 154-217). The transport (`httpClient.Do` plus the body read,
which the model folds into the delivered `RawResponse`) is the oracle
`transportDo`. The Go dual return `(*Response, error)` is modelled as
`Option Response × Option String`: `(none, some e)` for the early-return
error paths, `(some r, none)` on status 200, `(some r, some e)` on any
other status. -/
def Request (parseURL : String → Except String URLParts)
    (pathJoin : String → String → String)
    (transportDo : OutRequest → Except String RawResponse)
    (h : client) (path query : String) : Option Response × Option String :=
  match RequestURL parseURL pathJoin h path query with
  | .error e => (none, some e)
  | .ok (u, q) =>
    let req : OutRequest := { url := u, query := q, headers := [], basicAuth := none }
    let req := { req with headers := setHeaders h.opt req.headers }
    let req := setBasicAuth h.opt req
    match transportDo req with
    | .error e => (none, some e)
    | .ok resp =>
      let headers := filterHeaders resp.Header
      if resp.StatusCode = 200 then
        (some { StatusCode := resp.StatusCode, Headers := headers, Body := resp.Body }, none)
      else
        (some { StatusCode := resp.StatusCode, Headers := headers, Body := resp.Body },
         some ("status code=" ++ toString resp.StatusCode ++ ", body=" ++ resp.Body))

/-- Modelled from the spec: the signing/verification code
(`STNS.Signature` / `STNS.VerifyWithUser`) is not under src/ — only its
caller in the example `main` is. Per spec §4.6 the scheme itself
(signing with the local private key, verifying with a fetched public
key) is external cryptography; it is modelled as an abstract scheme with
keys drawn from `Nat` and payloads/signatures as byte lists. -/
structure SigScheme where
  sign : Nat → List Nat → List Nat
  verify : Nat → List Nat → List Nat → Bool

/-- Modelled from the spec: `Sign(payload) -> signature` signs with the
local principal's private key. -/
def Sign (S : SigScheme) (priv : Nat) (payload : List Nat) : List Nat :=
  S.sign priv payload

/-- Modelled from the spec: `VerifyWithIdentity(name, payload, signature)`
fetches the named identity's public key via the executor (`fetchKey`
oracle; `Except.error` when the identity cannot be resolved) and then
runs the cryptographic check; a failed check is `(false, none)` — a
normal negative result, not an error. -/
def VerifyWithIdentity (S : SigScheme) (fetchKey : String → Except String Nat)
    (name : String) (payload signature : List Nat) : Bool × Option String :=
  match fetchKey name with
  | .error e => (false, some e)
  | .ok pub => (S.verify pub payload signature, none)

/-! ## Concrete oracles and inputs used by counterexamples and witnesses -/

/-- A filesystem on which every read fails. -/
def fsMissing : String → Except String String :=
  fun p => Except.error ("open " ++ p ++ ": no such file or directory")

/-- A filesystem on which every read returns the blob "garbage". -/
def fsGarbage : String → Except String String :=
  fun _ => Except.ok "garbage"

/-- A PEM decoder that extracts no certificate from any blob (the blob is
not parsable as PEM). -/
def pemNone : String → List Cert := fun _ => []

/-- A key-pair loader on which every load fails. -/
def keyPairFail : String → String → Except String Cert :=
  fun _ _ => Except.error "tls: failed to find any PEM data in certificate input"

/-- The zero value of `Options`. -/
def optZero : Options :=
  { UserAgent := "", RequestTimeout := 0, RequestRetry := 0, HttpKeepalive := false,
    HttpProxy := "", HttpHeaders := [], AuthToken := "", User := "", Password := "",
    SkipSSLVerify := false, TLS := { CA := "", Cert := "", Key := "" } }

/-! ## C1 -/

/-- C1, counterexample: with `SkipSSLVerify = true` but no CA and no
cert/key material configured, `tlsConfig` returns the nil sentinel —
no TLS configuration is produced at all, so certificate-chain validation
is NOT disabled (the platform default, which validates, applies). -/
theorem C1_counterexample :
    ({ optZero with SkipSSLVerify := true } : Options).SkipSSLVerify = true ∧
    tlsConfig fsMissing pemNone keyPairFail { optZero with SkipSSLVerify := true }
      = .ok none :=
  ⟨rfl, rfl⟩

/-- C1, amended: if `skipVerify` is set and `tlsConfig` actually produces
a custom TLS configuration (which requires CA or paired cert/key material
to be configured), that configuration disables certificate-chain
validation; when no trust material ends up configured the nil sentinel is
returned instead and skip-verify is silently dropped. -/
theorem C1_skipVerify_in_produced_config
    (fs : String → Except String String) (pem : String → List Cert)
    (lkp : String → String → Except String Cert) (opt : Options) (c : TLSConfig)
    (h : tlsConfig fs pem lkp opt = .ok (some c))
    (hs : opt.SkipSSLVerify = true) :
    c.InsecureSkipVerify = true := by
  simp only [tlsConfig] at h
  split at h
  · exact absurd h (by simp)
  · rename_i heq1
    split at h
    · exact absurd h (by simp)
    · rename_i c2 heq2
      split at h
      · exact absurd h (by simp)
      · have hc : c2 = c := by
          simpa using h
        subst hc
        split at heq2
        · split at heq2
          · exact absurd heq2 (by simp)
          · split at heq1
            · split at heq1
              · exact absurd heq1 (by simp)
              · rcases Except.ok.inj heq1 with h1
                rcases Except.ok.inj heq2 with h2
                subst h2; subst h1; simpa using hs
            · rcases Except.ok.inj heq1 with h1
              rcases Except.ok.inj heq2 with h2
              subst h2; subst h1; simpa using hs
        · split at heq1
          · split at heq1
            · exact absurd heq1 (by simp)
            · rcases Except.ok.inj heq1 with h1
              rcases Except.ok.inj heq2 with h2
              subst h2; subst h1; simpa using hs
          · rcases Except.ok.inj heq1 with h1
            rcases Except.ok.inj heq2 with h2
            subst h2; subst h1; simpa using hs

/-- C1 witness: CA material configured plus skip-verify set yields a
produced configuration with validation disabled. -/
theorem C1_witness :
    tlsConfig fsGarbage pemNone keyPairFail
      { optZero with SkipSSLVerify := true, TLS := { CA := "ca.pem", Cert := "", Key := "" } }
      = .ok (some { InsecureSkipVerify := true, RootCAs := some [], Certificates := [] }) ∧
    ({ InsecureSkipVerify := true, RootCAs := some [], Certificates := [] } : TLSConfig).InsecureSkipVerify = true :=
  ⟨rfl, C1_skipVerify_in_produced_config fsGarbage pemNone keyPairFail
    { optZero with SkipSSLVerify := true, TLS := { CA := "ca.pem", Cert := "", Key := "" } }
    { InsecureSkipVerify := true, RootCAs := some [], Certificates := [] } rfl rfl⟩

/-! ## C2 -/

/-- C2, counterexample: with `Cert = "cert.pem"` and `Key = ""` (exactly
one of the pair set), `tlsConfig` succeeds with the nil sentinel — no
configuration error is reported and the lone value is never even read
(the loader oracle here fails on every input, yet is not consulted). -/
theorem C2_counterexample :
    ({ optZero with TLS := { CA := "", Cert := "cert.pem", Key := "" } } : Options).TLS.Cert ≠ "" ∧
    ({ optZero with TLS := { CA := "", Cert := "cert.pem", Key := "" } } : Options).TLS.Key = "" ∧
    tlsConfig fsMissing pemNone keyPairFail
      { optZero with TLS := { CA := "", Cert := "cert.pem", Key := "" } } = .ok none :=
  ⟨by decide, rfl, rfl⟩

/-- C2, amended: when exactly one of certPath/keyPath is set, the lone
value is silently ignored — `tlsConfig` behaves exactly as if both were
empty (no error, no client certificate loaded). -/
theorem C2_lone_material_ignored
    (fs : String → Except String String) (pem : String → List Cert)
    (lkp : String → String → Except String Cert) (opt : Options)
    (h : (opt.TLS.Cert ≠ "" ∧ opt.TLS.Key = "") ∨ (opt.TLS.Cert = "" ∧ opt.TLS.Key ≠ "")) :
    tlsConfig fs pem lkp opt
      = tlsConfig fs pem lkp { opt with TLS := { opt.TLS with Cert := "", Key := "" } } := by
  have hpair : ¬(opt.TLS.Cert ≠ "" ∧ opt.TLS.Key ≠ "") := by
    rcases h with ⟨_, h2⟩ | ⟨h1, _⟩
    · exact fun hc => hc.2 h2
    · exact fun hc => hc.1 h1
  simp [tlsConfig, hpair]

/-- C2 witness: concrete lone-cert configuration handled identically to
the empty configuration. -/
theorem C2_witness :
    tlsConfig fsMissing pemNone keyPairFail
      { optZero with TLS := { CA := "", Cert := "cert.pem", Key := "" } }
      = tlsConfig fsMissing pemNone keyPairFail
        { ({ optZero with TLS := { CA := "", Cert := "cert.pem", Key := "" } } : Options) with
          TLS := { CA := "", Cert := "", Key := "" } } :=
  C2_lone_material_ignored fsMissing pemNone keyPairFail
    { optZero with TLS := { CA := "", Cert := "cert.pem", Key := "" } }
    (Or.inl ⟨by decide, rfl⟩)

/-! ## C3 -/

/-- C3, counterexample: a readable CA file whose content yields no
certificate when parsed as PEM (`pemNone` extracts nothing from
"garbage") does NOT make `tlsConfig` fail: it succeeds and installs an
empty dedicated root pool. -/
theorem C3_counterexample :
    pemNone "garbage" = [] ∧
    tlsConfig fsGarbage pemNone keyPairFail
      { optZero with TLS := { CA := "ca.pem", Cert := "", Key := "" } }
      = .ok (some { InsecureSkipVerify := false, RootCAs := some [], Certificates := [] }) :=
  ⟨rfl, rfl⟩

/-- C3, amended: with a non-empty caPath, `tlsConfig` fails (propagating
the read error) iff the file is unreadable; when the read succeeds, every
produced configuration carries a dedicated root pool built from exactly
the certificates PEM-parsed out of that file's content — possibly an
empty pool when the content is unparsable, which is silently accepted
rather than an error — never the process-wide default set. -/
theorem C3_ca_amended
    (fs : String → Except String String) (pem : String → List Cert)
    (lkp : String → String → Except String Cert) (opt : Options)
    (hca : opt.TLS.CA ≠ "") :
    (∀ e, fs opt.TLS.CA = .error e → tlsConfig fs pem lkp opt = .error e) ∧
    (∀ s c, fs opt.TLS.CA = .ok s → tlsConfig fs pem lkp opt = .ok (some c) →
      c.RootCAs = some (pem s)) := by
  constructor
  · intro e he
    simp [tlsConfig, hca, he]
  · intro s c hs h
    simp only [tlsConfig, if_pos hca, hs] at h
    split at h
    · exact absurd h (by simp)
    · rename_i c2 heq2
      split at h
      · exact absurd h (by simp)
      · have hc : c2 = c := by simpa using h
        subst hc
        split at heq2
        · split at heq2
          · exact absurd heq2 (by simp)
          · rcases Except.ok.inj heq2 with h2
            subst h2; rfl
        · rcases Except.ok.inj heq2 with h2
          subst h2; rfl

/-- C3 witness: the unreadable-file half at a concrete input. -/
theorem C3_witness :
    fsMissing "ca.pem" = .error "open ca.pem: no such file or directory" ∧
    tlsConfig fsMissing pemNone keyPairFail
      { optZero with TLS := { CA := "ca.pem", Cert := "", Key := "" } }
      = .error "open ca.pem: no such file or directory" :=
  ⟨rfl, (C3_ca_amended fsMissing pemNone keyPairFail
    { optZero with TLS := { CA := "ca.pem", Cert := "", Key := "" } } (by decide)).1
    "open ca.pem: no such file or directory" rfl⟩

/-! ## C4 -/

/-- C4: with caPath, certPath and keyPath all empty and skipVerify
false, `tlsConfig` returns the nil sentinel "no custom TLS
configuration" (and no error), so https endpoints fall back to the
platform-default TLS configuration. -/
theorem C4_default_sentinel
    (fs : String → Except String String) (pem : String → List Cert)
    (lkp : String → String → Except String Cert) (opt : Options)
    (hca : opt.TLS.CA = "") (hcert : opt.TLS.Cert = "") (hkey : opt.TLS.Key = "")
    (_hsv : opt.SkipSSLVerify = false) :
    tlsConfig fs pem lkp opt = .ok none := by
  simp [tlsConfig, hca, hcert, hkey]

/-- C4 witness: the zero-valued Options produce the nil sentinel. -/
theorem C4_witness :
    tlsConfig fsMissing pemNone keyPairFail optZero = .ok none :=
  C4_default_sentinel fsMissing pemNone keyPairFail optZero rfl rfl rfl rfl

/-! ## C5 -/

/-- Demo oracles for the Request witnesses. -/
def parseURLDemo : String → Except String URLParts :=
  fun s => Except.ok { scheme := "https", host := "directory.example", path := s }

def pathJoinDemo : String → String → String := fun a b => a ++ "/" ++ b

def raw404 : RawResponse := { StatusCode := 404, Header := [], Body := "not found" }

def transportDo404 : OutRequest → Except String RawResponse :=
  fun _ => Except.ok raw404

def clientDemo : client :=
  { ApiEndpoint := "https://directory.example/v1/", opt := optZero, retryMax := 3,
    transport := { dial := .tcp 15, disableKeepAlives := true, tlsClientConfig := none,
                   proxy := .fromEnvironment } }

/-- C5: once the transport delivers a response, `Request` returns a
populated Response carrying the status code, the filtered headers and the
raw body in every case; the error is nil exactly on status 200, and on
any other status it is non-nil with a message containing both the status
code and the raw body text. -/
theorem C5_status_dual_return
    (parseURL : String → Except String URLParts) (pathJoin : String → String → String)
    (transportDo : OutRequest → Except String RawResponse)
    (h : client) (p query : String) (u : URLParts) (raw : RawResponse)
    (hurl : parseURL h.ApiEndpoint = .ok u)
    (hdo : transportDo (setBasicAuth h.opt
      { url := { u with path := pathJoin u.path p }, query := query,
        headers := setHeaders h.opt [], basicAuth := none }) = .ok raw) :
    (raw.StatusCode = 200 →
      Request parseURL pathJoin transportDo h p query
        = (some { StatusCode := raw.StatusCode, Headers := filterHeaders raw.Header,
                  Body := raw.Body }, none)) ∧
    (raw.StatusCode ≠ 200 →
      Request parseURL pathJoin transportDo h p query
        = (some { StatusCode := raw.StatusCode, Headers := filterHeaders raw.Header,
                  Body := raw.Body },
           some ("status code=" ++ toString raw.StatusCode ++ ", body=" ++ raw.Body)) ∧
      (∃ a b, "status code=" ++ toString raw.StatusCode ++ ", body=" ++ raw.Body
        = a ++ toString raw.StatusCode ++ b) ∧
      (∃ a b, "status code=" ++ toString raw.StatusCode ++ ", body=" ++ raw.Body
        = a ++ raw.Body ++ b)) := by
  constructor
  · intro h200
    simp [Request, RequestURL, hurl, hdo, h200]
  · intro hne
    refine ⟨?_, ⟨"status code=", ", body=" ++ raw.Body, by simp [String.append_assoc]⟩,
      ⟨"status code=" ++ toString raw.StatusCode ++ ", body=", "", by
        simp [String.append_assoc]⟩⟩
    simp [Request, RequestURL, hurl, hdo, hne]

/-- C5 witness: a mocked 404 with body "not found". -/
theorem C5_witness :
    Request parseURLDemo pathJoinDemo transportDo404 clientDemo "users/pyama" ""
      = (some { StatusCode := 404, Headers := [], Body := "not found" },
         some "status code=404, body=not found") ∧
    (∃ a b, "status code=404, body=not found" = a ++ toString (404 : Int) ++ b) ∧
    (∃ a b, "status code=404, body=not found" = a ++ "not found" ++ b) :=
  (C5_status_dual_return parseURLDemo pathJoinDemo transportDo404 clientDemo
    "users/pyama" ""
    { scheme := "https", host := "directory.example", path := "https://directory.example/v1/" }
    raw404 rfl rfl).2 (by decide)

/-! ## C6 -/

/-- Membership characterization of the `Request` header filter: an entry
survives iff its lower-cased name is allow-listed and its value is the
first value of that header in the raw response. -/
theorem filterHeaders_mem (H : List (String × List String)) (k v : String) :
    (k, v) ∈ filterHeaders H ↔
      (toLowerStr k ∈ supportHeaders ∧ ∃ vs, (k, vs) ∈ H ∧ vs.head? = some v) := by
  simp only [filterHeaders, List.mem_filterMap]
  constructor
  · rintro ⟨⟨k', vs⟩, hmem, hf⟩
    by_cases hc : toLowerStr k' ∈ supportHeaders
    · rw [if_pos hc] at hf
      cases vs with
      | nil => simp at hf
      | cons v0 t =>
        simp only [Option.some.injEq, Prod.mk.injEq] at hf
        obtain ⟨hk, hv⟩ := hf
        subst hk; subst hv
        exact ⟨hc, v0 :: t, hmem, rfl⟩
    · rw [if_neg hc] at hf
      exact absurd hf (by simp)
  · rintro ⟨hc, vs, hmem, hhd⟩
    refine ⟨(k, vs), hmem, ?_⟩
    cases vs with
    | nil => simp at hhd
    | cons v0 t =>
      simp only [List.head?_cons, Option.some.injEq] at hhd
      subst hhd
      simp [hc]

/-- C6: the Response produced by `Request` from a delivered raw response
carries exactly the allow-listed headers: an entry `(k, v)` is present
iff `k` lower-cases into the four-name allow-list and `v` is the first
value of header `k` in the raw response; every other header is absent. -/
theorem C6_header_allowlist
    (parseURL : String → Except String URLParts) (pathJoin : String → String → String)
    (transportDo : OutRequest → Except String RawResponse)
    (h : client) (p query : String) (u : URLParts) (raw : RawResponse)
    (hurl : parseURL h.ApiEndpoint = .ok u)
    (hdo : transportDo (setBasicAuth h.opt
      { url := { u with path := pathJoin u.path p }, query := query,
        headers := setHeaders h.opt [], basicAuth := none }) = .ok raw) :
    (Request parseURL pathJoin transportDo h p query).1
      = some { StatusCode := raw.StatusCode, Headers := filterHeaders raw.Header,
               Body := raw.Body } ∧
    (∀ k v, (k, v) ∈ filterHeaders raw.Header ↔
      (toLowerStr k ∈ supportHeaders ∧ ∃ vs, (k, vs) ∈ raw.Header ∧ vs.head? = some v)) ∧
    (∀ k v, toLowerStr k ∉ supportHeaders → (k, v) ∉ filterHeaders raw.Header) := by
  refine ⟨?_, fun k v => filterHeaders_mem raw.Header k v, fun k v hk hmem =>
    hk ((filterHeaders_mem raw.Header k v).mp hmem).1⟩
  by_cases h200 : raw.StatusCode = 200 <;>
    simp [Request, RequestURL, hurl, hdo, h200]

/-- Raw response used by the C6 witness: one allow-listed multi-valued
header, one non-listed header, one more allow-listed header. -/
def rawHeaders : RawResponse :=
  { StatusCode := 200,
    Header := [("User-Highest-Id", ["4000", "9"]), ("X-Secret", ["s"]),
               ("Group-Lowest-Id", ["2000"])],
    Body := "[]" }

def transportDoHeaders : OutRequest → Except String RawResponse :=
  fun _ => Except.ok rawHeaders

/-- C6 witness: the allow-listed headers survive with their first values;
the non-listed header is gone. -/
theorem C6_witness :
    (Request parseURLDemo pathJoinDemo transportDoHeaders clientDemo "users" "").1
      = some { StatusCode := 200,
               Headers := [("User-Highest-Id", "4000"), ("Group-Lowest-Id", "2000")],
               Body := "[]" } ∧
    ("User-Highest-Id", "4000") ∈ filterHeaders rawHeaders.Header ∧
    ("X-Secret", "s") ∉ filterHeaders rawHeaders.Header := by
  have h := C6_header_allowlist parseURLDemo pathJoinDemo transportDoHeaders clientDemo
    "users" ""
    { scheme := "https", host := "directory.example", path := "https://directory.example/v1/" }
    rawHeaders rfl rfl
  refine ⟨h.1.trans (by decide),
    (h.2.1 "User-Highest-Id" "4000").mpr ⟨by decide, ["4000", "9"], by decide, rfl⟩,
    h.2.2 "X-Secret" "s" (by decide)⟩

/-! ## C7 -/

/-- A string starting with "unix" cannot start with "https". -/
theorem hasPre_unix_not_https (s : String) (h : hasPre s "unix" = true) :
    hasPre s "https" = false := by
  simp only [hasPre, decide_eq_true_eq] at h
  simp only [hasPre, decide_eq_false_iff_not]
  intro hcontra
  have h' : s.data.take 4 = ['u', 'n', 'i', 'x'] := by simpa using h
  have hc' : s.data.take 5 = ['h', 't', 't', 'p', 's'] := by simpa using hcontra
  have h4 : List.take 4 (List.take 5 s.data) = List.take 4 s.data := by
    rw [List.take_take]
    norm_num
  rw [hc', h'] at h4
  exact absurd h4 (by decide)

/-- C7: for an endpoint starting with "unix", client construction fails
(propagating the parse error) when the endpoint does not parse as a URL;
when it parses, every outbound dial of the built client goes to the
parsed URL's path component as a Unix socket, whatever network/address
the request logically targets, and the stored endpoint is rewritten to
the fixed placeholder "http://unix". -/
theorem C7_unix_socket
    (envParse : Options → Except String Options)
    (fs : String → Except String String) (pem : String → List Cert)
    (lkp : String → String → Except String Cert)
    (parseURL : String → Except String URLParts)
    (endpoint : String) (opt0 opt1 : Options)
    (henv : envParse opt0 = .ok opt1)
    (hu : hasPre endpoint "unix" = true) :
    (∀ e, parseURL endpoint = .error e →
      newClient envParse fs pem lkp parseURL endpoint opt0 = .error e) ∧
    (∀ u c o, parseURL endpoint = .ok u →
      newClient envParse fs pem lkp parseURL endpoint opt0 = .ok (c, o) →
      c.ApiEndpoint = "http://unix" ∧
      ∀ network addr, c.transport.dialFor network addr = .unix u.path) := by
  have hnh := hasPre_unix_not_https endpoint hu
  constructor
  · intro e he
    simp [newClient, henv, hnh, hu, he]
  · intro u c o hpu h
    simp only [newClient, henv, hnh, Bool.false_eq_true, if_false, hu, if_true, hpu,
      Except.ok.injEq, Prod.mk.injEq, reduceIte] at h
    obtain ⟨hc, ho⟩ := h
    subst hc
    refine ⟨rfl, fun network addr => ?_⟩
    by_cases hp : (applyDefaultOptions opt1).HttpProxy = ""
    · simp [hp, Transport.dialFor]
    · rcases hq : parseURL (applyDefaultOptions opt1).HttpProxy with e2 | u2 <;>
        simp [hp, hq, Transport.dialFor]

/-- Shared shape lemma: a successful `newClient` returns, as the final
state of the caller's Options struct, exactly the env-parsed Options with
the zero-value defaults applied — and the client aliases that struct. -/
theorem newClient_ok_opt
    (envParse : Options → Except String Options)
    (fs : String → Except String String) (pem : String → List Cert)
    (lkp : String → String → Except String Cert)
    (parseURL : String → Except String URLParts)
    (endpoint : String) (opt0 opt1 : Options) (c : client) (o : Options)
    (henv : envParse opt0 = .ok opt1)
    (h : newClient envParse fs pem lkp parseURL endpoint opt0 = .ok (c, o)) :
    o = applyDefaultOptions opt1 ∧ c.opt = o := by
  simp only [newClient, henv] at h
  split at h
  · exact absurd h (by simp)
  · rename_i tr1 heq1
    split at h
    · exact absurd h (by simp)
    · rename_i tr2 endpoint2 heq2
      simp only [Except.ok.injEq, Prod.mk.injEq] at h
      obtain ⟨hc, ho⟩ := h
      subst hc
      exact ⟨ho.symm, ho⟩

/-- Field-wise description of the default application in `newClient`. -/
theorem applyDefaultOptions_spec (opt : Options) :
    (applyDefaultOptions opt).UserAgent
      = (if opt.UserAgent = "" then "libstns-go/0.0.1" else opt.UserAgent) ∧
    (applyDefaultOptions opt).RequestTimeout
      = (if opt.RequestTimeout = 0 then 15 else opt.RequestTimeout) ∧
    (applyDefaultOptions opt).RequestRetry
      = (if opt.RequestRetry = 0 then 3 else opt.RequestRetry) := by
  have hver : "libstns-go/" ++ version = "libstns-go/0.0.1" := rfl
  by_cases hA : opt.UserAgent = "" <;> by_cases hB : opt.RequestTimeout = 0 <;>
    by_cases hC : opt.RequestRetry = 0 <;>
    simp [applyDefaultOptions, hA, hB, hC, hver, DefaultTimeout, DefaultRetry]

/-- Demo oracles and values for the newClient witnesses. -/
def envParseNone : Options → Except String Options := fun o => Except.ok o

def parseURLUnix : String → Except String URLParts :=
  fun s => if s = "unix:///var/run/stns.sock" then
      Except.ok { scheme := "unix", host := "", path := "/var/run/stns.sock" }
    else Except.error "parse error"

def optDefaulted : Options :=
  { optZero with UserAgent := "libstns-go/0.0.1", RequestTimeout := 15, RequestRetry := 3 }

def clientUnixDemo : client :=
  { ApiEndpoint := "http://unix", opt := optDefaulted, retryMax := 3,
    transport := { dial := .unixSocket "/var/run/stns.sock", disableKeepAlives := true,
                   tlsClientConfig := none, proxy := .fromEnvironment } }

def clientHttpDemo : client :=
  { ApiEndpoint := "http://stns.example.com", opt := optDefaulted, retryMax := 3,
    transport := { dial := .tcp 15, disableKeepAlives := true,
                   tlsClientConfig := none, proxy := .fromEnvironment } }

/-- C7 witness: `unix:///var/run/stns.sock` gives a client whose stored
endpoint is the placeholder and whose dials ignore the logical target. -/
theorem C7_witness :
    clientUnixDemo.ApiEndpoint = "http://unix" ∧
    clientUnixDemo.transport.dialFor "tcp" "stns.example.com:443"
      = DialTarget.unix "/var/run/stns.sock" := by
  have h := (C7_unix_socket envParseNone fsMissing pemNone keyPairFail parseURLUnix
    "unix:///var/run/stns.sock" optZero optZero rfl (by decide)).2
    { scheme := "unix", host := "", path := "/var/run/stns.sock" }
    clientUnixDemo optDefaulted rfl rfl
  exact ⟨h.1, h.2 "tcp" "stns.example.com:443"⟩

/-! ## C9 -/

/-- C9: when `env.Parse` leaves the caller's Options unchanged (no
relevant environment variables), a successful `newClient` applies the
zero-value defaults — user agent "libstns-go/0.0.1", timeout 15,
retry count 3 — and keeps every non-zero caller-supplied value. -/
theorem C9_defaults
    (envParse : Options → Except String Options)
    (fs : String → Except String String) (pem : String → List Cert)
    (lkp : String → String → Except String Cert)
    (parseURL : String → Except String URLParts)
    (endpoint : String) (opt : Options) (c : client) (o : Options)
    (henv : envParse opt = .ok opt)
    (h : newClient envParse fs pem lkp parseURL endpoint opt = .ok (c, o)) :
    (opt.UserAgent = "" → o.UserAgent = "libstns-go/0.0.1") ∧
    (opt.UserAgent ≠ "" → o.UserAgent = opt.UserAgent) ∧
    (opt.RequestTimeout = 0 → o.RequestTimeout = 15) ∧
    (opt.RequestTimeout ≠ 0 → o.RequestTimeout = opt.RequestTimeout) ∧
    (opt.RequestRetry = 0 → o.RequestRetry = 3) ∧
    (opt.RequestRetry ≠ 0 → o.RequestRetry = opt.RequestRetry) := by
  obtain ⟨ho, -⟩ := newClient_ok_opt envParse fs pem lkp parseURL endpoint opt opt c o henv h
  subst ho
  obtain ⟨hUA, hTO, hRR⟩ := applyDefaultOptions_spec opt
  refine ⟨fun h1 => ?_, fun h1 => ?_, fun h1 => ?_, fun h1 => ?_, fun h1 => ?_, fun h1 => ?_⟩ <;>
    simp [hUA, hTO, hRR, h1]

/-- C9 witness: all-zero Options get all three defaults. -/
theorem C9_witness :
    optZero.UserAgent = "" ∧ optDefaulted.UserAgent = "libstns-go/0.0.1" ∧
    optDefaulted.RequestTimeout = 15 ∧ optDefaulted.RequestRetry = 3 := by
  have h := C9_defaults envParseNone fsMissing pemNone keyPairFail parseURLUnix
    "http://stns.example.com" optZero clientHttpDemo optDefaulted rfl rfl
  exact ⟨rfl, h.1 rfl, h.2.2.1 rfl, h.2.2.2.2.1 rfl⟩

/-! ## C10 -/

/-- C10: `newClient` writes into the caller's Options struct: after any
successful construction the struct's user agent, timeout and retry count
are non-zero, and the client's stored Options aliases that same struct. -/
theorem C10_options_mutated
    (envParse : Options → Except String Options)
    (fs : String → Except String String) (pem : String → List Cert)
    (lkp : String → String → Except String Cert)
    (parseURL : String → Except String URLParts)
    (endpoint : String) (opt0 : Options) (c : client) (o : Options)
    (h : newClient envParse fs pem lkp parseURL endpoint opt0 = .ok (c, o)) :
    o.UserAgent ≠ "" ∧ o.RequestTimeout ≠ 0 ∧ o.RequestRetry ≠ 0 ∧ c.opt = o := by
  rcases henv : envParse opt0 with e | opt1
  · rw [newClient, henv] at h
    exact absurd h (by simp)
  · obtain ⟨ho, hco⟩ := newClient_ok_opt envParse fs pem lkp parseURL endpoint opt0 opt1
      c o henv h
    subst ho
    obtain ⟨hUA, hTO, hRR⟩ := applyDefaultOptions_spec opt1
    refine ⟨?_, ?_, ?_, hco⟩ <;>
      [rw [hUA]; rw [hTO]; rw [hRR]] <;>
      split <;> simp_all
  
/-- C10 witness: the mutated Options after a concrete construction. -/
theorem C10_witness :
    optDefaulted.UserAgent ≠ "" ∧ optDefaulted.RequestTimeout ≠ 0 ∧
    optDefaulted.RequestRetry ≠ 0 ∧ clientHttpDemo.opt = optDefaulted :=
  C10_options_mutated envParseNone fsMissing pemNone keyPairFail parseURLUnix
    "http://stns.example.com" optZero clientHttpDemo optDefaulted rfl

/-! ## C8 -/

/-- C8: when the named identity's key fetch succeeds and the fetched
public key corresponds to the signer's private key, verifying the
signature produced by `Sign` over the same payload returns (true, nil);
verifying it over a payload mutated after signing, with the key still
fetched successfully, returns (false, nil) — a normal negative result,
not an error. -/
theorem C8_sign_verify_roundtrip
    (S : SigScheme) (fetchKey : String → Except String Nat)
    (pub priv : Nat) (name : String) (payload mutated : List Nat)
    (hfetch : fetchKey name = .ok pub)
    (hcorrespond : ∀ p, S.verify pub p (S.sign priv p) = true)
    (hmut : S.verify pub mutated (Sign S priv payload) = false) :
    VerifyWithIdentity S fetchKey name payload (Sign S priv payload) = (true, none) ∧
    VerifyWithIdentity S fetchKey name mutated (Sign S priv payload) = (false, none) := by
  constructor
  · simp [VerifyWithIdentity, hfetch, Sign, hcorrespond payload]
  · simp [VerifyWithIdentity, hfetch, hmut]

/-- A toy signature scheme for the C8 witness: the "signature" is the
payload folded into the key; a public key corresponds to the equal
private key. -/
def sigDemo : SigScheme :=
  { sign := fun k p => [p.foldl (· + ·) k],
    verify := fun k p s => decide (s = [p.foldl (· + ·) k]) }

def fetchKeyDemo : String → Except String Nat :=
  fun n => if n = "pyama" then Except.ok 5 else Except.error "user not found"

/-- C8 witness: round-trip succeeds on the signed payload and yields
(false, nil) on a mutated payload. -/
theorem C8_witness :
    VerifyWithIdentity sigDemo fetchKeyDemo "pyama" [1, 2] (Sign sigDemo 5 [1, 2])
      = (true, none) ∧
    VerifyWithIdentity sigDemo fetchKeyDemo "pyama" [1, 3] (Sign sigDemo 5 [1, 2])
      = (false, none) :=
  C8_sign_verify_roundtrip sigDemo fetchKeyDemo 5 5 "pyama" [1, 2] [1, 3] rfl
    (fun p => by simp [sigDemo]) (by decide)
